import Mathlib

/-!
Shallow embedding of `src/group/lib/libgroup.c` (the libgroup client of the
group-membership daemon): session handles, the command encoders
(`group_join`, `group_leave`, `group_done`), session setup/teardown
(`group_init`, `group_exit`, `group_get_fd`) and the event dispatcher
(`group_dispatch`).

Modelling conventions:
- C function pointers in `group_callbacks_t` are opaque handler identifiers
  (`Nat`); an operation's observable effect records which identifier was
  invoked and with which arguments.
- Machine `int` values are Lean `Int` (all integers appearing here are far
  from the 32-bit bounds).
- A `group_handle_t` argument is `Option group_handle`: `none` is the NULL
  pointer, `some hh` a pointer to a struct with contents `hh`.
- Syscall outcomes (`malloc`, `socket`, `connect`, `write`, `read`) that the
  code branches on are supplied as explicit oracle inputs.
- Each operation returns a record holding the C return value, the `errno`
  it set (if any), the byte strings handed to `write` on the descriptor,
  and the struct contents after the call.
-/

namespace LibGroup

/-- Tag stored in `h->magic` by `group_init` (`#define LIBGROUP_MAGIC 0x67727570`). -/
def LIBGROUP_MAGIC : Nat := 0x67727570

/-- Maximum number of tokens `make_args` produces (`#define MAXARGS 100`). -/
def MAXARGS : Nat := 100

/-- Size of the fixed line buffers (`#define MAXLINE 256`). -/
def MAXLINE : Nat := 256

/-- Value of the `EINVAL` errno set by `VALIDATE_HANDLE`. -/
def EINVAL : Nat := 22

/-- Embeds `group_callbacks_t`: one function pointer per event kind,
modelled as opaque handler identifiers. -/
structure group_callbacks_t where
  stop : Nat
  start : Nat
  finish : Nat
  terminate : Nat
  set_id : Nat
deriving DecidableEq, Repr

/-- Embeds `struct group_handle`. `priv` is the C field `private` (a Lean
keyword), an opaque user-context pointer modelled as a `Nat`. `prog_name`
holds the result of `strncpy(h->prog_name, prog_name, 32)`. -/
structure group_handle where
  magic : Nat
  fd : Nat
  level : Int
  priv : Nat
  cbs : group_callbacks_t
  prog_name : String
deriving DecidableEq, Repr

/-- Embeds `strncpy(dst, src, 32)` on the 32-byte `prog_name` field: at most
32 characters are copied (when `src` has 32 or more characters no NUL
terminator fits, so the stored name is exactly the first 32 characters). -/
def strncpy32 (s : String) : String := ⟨s.data.take 32⟩

/-- Result of one of the write-style operations (`group_join`, `group_leave`,
`group_done`): the C return value, the errno set (if any), the byte strings
passed to `write` on the session descriptor, and the handle struct contents
after the call. -/
structure WriteOut where
  ret : Int
  errno : Option Nat
  wire : List String
  h' : Option group_handle
deriving DecidableEq, Repr

/-- Embeds `group_join`. After `VALIDATE_HANDLE`, the C source runs
`memset(buf, 0, sizeof(buf));` and then `sprintf("join %s", name);` — the
first argument of `sprintf` is its destination buffer, so this call formats
`name` into the string literal `"join %s"` and never touches `buf`. `buf`
therefore keeps the all-zero contents from `memset`, `strlen(buf)` is 0, and
`write(h->fd, buf, strlen(buf))` transmits the empty byte string and returns
0, which is returned as `rv`. -/
def group_join (h : Option group_handle) (name info : String) : WriteOut :=
  match h with
  | none => ⟨-1, some EINVAL, [], none⟩
  | some hh =>
    if hh.magic = LIBGROUP_MAGIC then
      let buf : String := ""
      let _formattedIntoLiteral := "join " ++ name
      ⟨Int.ofNat buf.length, none, [buf], some hh⟩
    else ⟨-1, some EINVAL, [], some hh⟩

/-- Embeds `group_leave`; same shape as `group_join`, with
`sprintf("leave %s", name);` again formatting into the literal, not `buf`. -/
def group_leave (h : Option group_handle) (name info : String) : WriteOut :=
  match h with
  | none => ⟨-1, some EINVAL, [], none⟩
  | some hh =>
    if hh.magic = LIBGROUP_MAGIC then
      let buf : String := ""
      let _formattedIntoLiteral := "leave " ++ name
      ⟨Int.ofNat buf.length, none, [buf], some hh⟩
    else ⟨-1, some EINVAL, [], some hh⟩

/-- Embeds `group_done`. The C source runs
`sprintf("done %s %d", name, event_nr);`: the destination is the string
literal `"done %s %d"` and the format string is `name`, so `buf` again keeps
its zeroed contents and the write transmits 0 bytes. -/
def group_done (h : Option group_handle) (name : String) (event_nr : Int) :
    WriteOut :=
  match h with
  | none => ⟨-1, some EINVAL, [], none⟩
  | some hh =>
    if hh.magic = LIBGROUP_MAGIC then
      let buf : String := ""
      let _formattedIntoLiteral := "done " ++ name ++ " " ++ toString event_nr
      ⟨Int.ofNat buf.length, none, [buf], some hh⟩
    else ⟨-1, some EINVAL, [], some hh⟩

/-- Outcome of each syscall `group_init` branches on: whether `malloc`
succeeds, the descriptor returned by `socket` (`none` for failure), and
whether `connect` and the handshake `write` succeed. -/
structure InitWorld where
  mallocOk : Bool
  socketFd : Option Nat
  connectOk : Bool
  writeOk : Bool
deriving DecidableEq, Repr

/-- Result of `group_init`: the returned handle (`none` is the C NULL
return), the byte strings transmitted on the connection, the descriptors
still open when the call returns, and whether the `malloc`-ed handle struct
is still allocated when the call returns. -/
structure InitOut where
  handle : Option group_handle
  wire : List String
  openFds : List Nat
  heapLive : Bool
deriving DecidableEq, Repr

/-- Embeds `group_init`. On the success path the struct fields are filled in
(`h->cbs = *cbs` copies the caller's callback struct by value;
`strncpy(h->prog_name, prog_name, 32)` truncates the stored name), a
PF_UNIX/SOCK_STREAM socket is created and connected, and the handshake
`sprintf(buf, "setup %s %d", prog_name, level)` — note: the untruncated
`prog_name` argument, not `h->prog_name` — is written. Every `goto fail`
runs `close(h->fd); free(h); return NULL`, so on the socket-failure path
(`h->fd = -1`, nothing open) and the connect/write-failure paths no
descriptor stays open and the struct is freed. -/
def group_init (w : InitWorld) (priv : Nat) (prog_name : String)
    (level : Int) (cbs : group_callbacks_t) : InitOut :=
  if ¬ w.mallocOk then ⟨none, [], [], false⟩
  else
    match w.socketFd with
    | none =>
      -- goto fail: close(-1) is a no-op on an invalid descriptor; free(h)
      ⟨none, [], [], false⟩
    | some fd =>
      if ¬ w.connectOk then
        -- goto fail: close(fd); free(h)
        ⟨none, [], [], false⟩
      else
        let buf := "setup " ++ prog_name ++ " " ++ toString level
        if ¬ w.writeOk then
          -- the failed write transmits nothing; goto fail closes fd, frees h
          ⟨none, [], [], false⟩
        else
          ⟨some ⟨LIBGROUP_MAGIC, fd, level, priv, cbs, strncpy32 prog_name⟩,
           [buf], [fd], true⟩

/-- Result of `group_exit`: the C return value, the errno set (if any), the
descriptors passed to `close`, and the struct contents after the call. The
C code clears `h->magic` before `free(h)`; the cleared struct is what a
dangling use of the handle presents to `VALIDATE_HANDLE`, so it is retained
here as `h'`. -/
structure ExitOut where
  ret : Int
  errno : Option Nat
  closedFds : List Nat
  h' : Option group_handle
deriving DecidableEq, Repr

/-- Embeds `group_exit`: validate, clear the magic tag, close the
descriptor, free the struct. -/
def group_exit (h : Option group_handle) : ExitOut :=
  match h with
  | none => ⟨-1, some EINVAL, [], none⟩
  | some hh =>
    if hh.magic = LIBGROUP_MAGIC then
      ⟨0, none, [hh.fd], some { hh with magic := 0 }⟩
    else ⟨-1, some EINVAL, [], some hh⟩

/-- Embeds `group_get_fd`: the C return value paired with the errno set (if
any). -/
def group_get_fd (h : Option group_handle) : Int × Option Nat :=
  match h with
  | none => (-1, some EINVAL)
  | some hh =>
    if hh.magic = LIBGROUP_MAGIC then (Int.ofNat hh.fd, none)
    else (-1, some EINVAL)

/-- Splits a character list at `sep`, keeping empty tokens, left to right
(helper for `make_args`). -/
def splitSep (sep : Char) : List Char → List Char → List (List Char)
  | [], acc => [acc.reverse]
  | c :: cs, acc =>
    if c = sep then acc.reverse :: splitSep sep cs []
    else splitSep sep cs (c :: acc)

/-- Modelled from the spec: `make_args` is declared in groupd's shared
headers, outside `src/`. Per §4.3 of the spec it "splits the line into
whitespace-delimited tokens (a bounded maximum token count; protocol lines
beyond that bound are truncated)"; `group_dispatch` calls it with the
separator `' '` and `MAXARGS` slots. Splitting stops after `MAXARGS`
tokens, the remainder staying in the last token. The result is never empty:
the empty line yields the single token `""`. -/
def make_args (buf : String) : List String :=
  let ts := (splitSep ' ' buf.data []).map fun cs => (⟨cs⟩ : String)
  if ts.length ≤ MAXARGS then ts
  else ts.take (MAXARGS - 1) ++
    [String.intercalate " " (ts.drop (MAXARGS - 1))]

/-- Accumulates decimal digits, stopping at the first non-digit (the loop
inside C `atoi`). -/
def atoiLoop : List Char → Nat → Nat
  | [], acc => acc
  | c :: cs, acc =>
    if c.isDigit then atoiLoop cs (acc * 10 + (c.toNat - 48)) else acc

/-- Embeds C `atoi`: skip leading whitespace, read an optional sign, then a
best-effort digit prefix; a malformed token yields 0. -/
def atoi (s : String) : Int :=
  let cs := s.data.dropWhile fun c => c = ' ' ∨ c = '\t' ∨ c = '\n'
  match cs with
  | '-' :: rest => - Int.ofNat (atoiLoop rest 0)
  | '+' :: rest => Int.ofNat (atoiLoop rest 0)
  | _ => Int.ofNat (atoiLoop cs 0)

/-- Outcome of the single `read(h->fd, &buf, sizeof(buf))` in
`group_dispatch`: `ok data` for a positive-length read delivering `data`,
`closed` for a zero-byte read (peer closed), `err` for a failing read. -/
inductive ReadRes where
  | ok (data : String)
  | closed
  | err
deriving DecidableEq, Repr

/-- Contents of `buf` after `memset(buf, 0, sizeof(buf))` followed by the
read: the delivered bytes (at most `MAXLINE`) on success, and the untouched
all-zero buffer (the empty C string) when the read returns 0 or fails. -/
def readBuf : ReadRes → String
  | .ok data => ⟨data.data.take MAXLINE⟩
  | .closed => ""
  | .err => ""

/-- Undefined-behavior branch of the embedding: `group_dispatch` reading an
`argv[i]` slot with `i >= argc`, which `make_args` left uninitialized. -/
inductive Fault where
  | oobToken
deriving DecidableEq, Repr

/-- Arguments passed to the single callback invoked by `group_dispatch`,
one constructor per recognized action, mirroring the C callback
signatures minus the leading `(handle, private)` pair. -/
inductive Invocation where
  | stop (name : String)
  | start (name : String) (event_type event_nr : Int) (count : Int)
      (nodeids : List Int)
  | finish (name : String) (event_nr : Int)
  | terminate (name : String)
  | set_id (name : String) (id : Int)
deriving DecidableEq, Repr

/-- Result of `group_dispatch`: the C return value, the errno set (if any),
the callback invoked (handler identifier from the handle's stored
`group_callbacks_t`, paired with its arguments; `none` when no callback
runs), whether the `read` syscall was reached, and the struct contents
after the call. -/
structure DispatchOut where
  ret : Int
  errno : Option Nat
  invoked : Option (Nat × Invocation)
  didRead : Bool
  h' : Option group_handle
deriving DecidableEq, Repr

/-- Action of `group_dispatch` after the read: `make_args` has produced
`args`; `act = argv[0]` selects the `strcmp` branch. Each `argv[i]` access
is in-bounds only for `i < argc`; the `start` branch computes
`count = argc - 4` (negative when fewer than four tokens arrived, making
`malloc(count * sizeof(int))` a huge allocation), fills `nodeids` from the
tokens at positions 4 and up, and passes `argv[1], atoi(argv[2]),
atoi(argv[3]), count, nodeids` to the callback. An unmatched action falls
through to `return 0` with no callback invoked. -/
def dispatch_args (hh : group_handle) (args : List String) :
    Except Fault DispatchOut :=
  let argc := args.length
  let argv : Nat → Except Fault String := fun i =>
    if hlt : i < argc then .ok (args.get ⟨i, hlt⟩) else .error Fault.oobToken
  do
    let act ← argv 0
    if act = "stop" then
      let a1 ← argv 1
      pure ⟨0, none, some (hh.cbs.stop, Invocation.stop a1), true, some hh⟩
    else if act = "start" then
      let count : Int := Int.ofNat argc - 4
      let nodeids := (args.drop 4).map atoi
      let a1 ← argv 1
      let a2 ← argv 2
      let a3 ← argv 3
      pure ⟨0, none,
        some (hh.cbs.start,
          Invocation.start a1 (atoi a2) (atoi a3) count nodeids),
        true, some hh⟩
    else if act = "finish" then
      let a1 ← argv 1
      let a2 ← argv 2
      pure ⟨0, none, some (hh.cbs.finish, Invocation.finish a1 (atoi a2)),
        true, some hh⟩
    else if act = "terminate" then
      let a1 ← argv 1
      pure ⟨0, none, some (hh.cbs.terminate, Invocation.terminate a1),
        true, some hh⟩
    else if act = "set_id" then
      let a1 ← argv 1
      let a2 ← argv 2
      pure ⟨0, none, some (hh.cbs.set_id, Invocation.set_id a1 (atoi a2)),
        true, some hh⟩
    else
      pure ⟨0, none, none, true, some hh⟩

/-- Embeds `group_dispatch`: validate the handle, perform one read into the
zeroed buffer (the return value `rv` of the read is stored and never
inspected), tokenize with `make_args(buf, &argc, argv, ' ')`, and branch on
`argv[0]`. -/
def group_dispatch (h : Option group_handle) (r : ReadRes) :
    Except Fault DispatchOut :=
  match h with
  | none => .ok ⟨-1, some EINVAL, none, false, none⟩
  | some hh =>
    if hh.magic = LIBGROUP_MAGIC then
      dispatch_args hh (make_args (readBuf r))
    else .ok ⟨-1, some EINVAL, none, false, some hh⟩

/-! Theorems. -/

/-- On a valid handle `group_dispatch` proceeds past `VALIDATE_HANDLE` to
the read-and-tokenize stage. -/
lemma group_dispatch_valid (hh : group_handle)
    (hm : hh.magic = LIBGROUP_MAGIC) (r : ReadRes) :
    group_dispatch (some hh) r = dispatch_args hh (make_args (readBuf r)) := by
  simp [group_dispatch, hm]

/-- C1: the claim says `group_join` writes exactly `"join " ++ name` and
`group_done h "g1" 7` writes exactly `"done g1 7"`. The code is wrong: both
functions call `sprintf` with the format literal as the destination
(`sprintf("join %s", name)`, `sprintf("done %s %d", name, event_nr)`), so
`buf` keeps its `memset` zeros and the `write` transmits the empty byte
string, not the command line. Evaluated here on a live handle with
`name = "g1"` and `event_nr = 7`. -/
theorem C1_join_done_write_nothing :
    group_join (some ⟨LIBGROUP_MAGIC, 3, 0, 0, ⟨1, 1, 1, 1, 1⟩, "p"⟩) "g1" "" =
      ⟨0, none, [""], some ⟨LIBGROUP_MAGIC, 3, 0, 0, ⟨1, 1, 1, 1, 1⟩, "p"⟩⟩ ∧
    group_done (some ⟨LIBGROUP_MAGIC, 3, 0, 0, ⟨1, 1, 1, 1, 1⟩, "p"⟩) "g1" 7 =
      ⟨0, none, [""], some ⟨LIBGROUP_MAGIC, 3, 0, 0, ⟨1, 1, 1, 1, 1⟩, "p"⟩⟩ ∧
    ("" : String) ≠ "join g1" ∧ ("" : String) ≠ "done g1 7" :=
  ⟨rfl, rfl, by decide, by decide⟩

/-- C2: the claim says `group_dispatch` fails (ConnectionClosed/ReadError)
when the read returns zero bytes or fails. The code is wrong: `rv =
read(...)` is stored and never inspected, the zero-filled buffer is
tokenized, no `strcmp` branch matches the empty action token, and the
function returns 0 (success) in both cases. -/
theorem C2_dispatch_ignores_read_failure (hh : group_handle)
    (hm : hh.magic = LIBGROUP_MAGIC) :
    group_dispatch (some hh) ReadRes.closed =
      .ok ⟨0, none, none, true, some hh⟩ ∧
    group_dispatch (some hh) ReadRes.err =
      .ok ⟨0, none, none, true, some hh⟩ :=
  ⟨by rw [group_dispatch_valid hh hm]; rfl,
   by rw [group_dispatch_valid hh hm]; rfl⟩

/-- C2 witness: the theorem applied to a concrete live handle. -/
theorem C2_dispatch_ignores_read_failure_witness :
    group_dispatch (some ⟨LIBGROUP_MAGIC, 3, 0, 0, ⟨1, 1, 1, 1, 1⟩, "p"⟩)
        ReadRes.closed =
      .ok ⟨0, none, none, true,
        some ⟨LIBGROUP_MAGIC, 3, 0, 0, ⟨1, 1, 1, 1, 1⟩, "p"⟩⟩ ∧
    group_dispatch (some ⟨LIBGROUP_MAGIC, 3, 0, 0, ⟨1, 1, 1, 1, 1⟩, "p"⟩)
        ReadRes.err =
      .ok ⟨0, none, none, true,
        some ⟨LIBGROUP_MAGIC, 3, 0, 0, ⟨1, 1, 1, 1, 1⟩, "p"⟩⟩ :=
  C2_dispatch_ignores_read_failure ⟨LIBGROUP_MAGIC, 3, 0, 0, ⟨1, 1, 1, 1, 1⟩, "p"⟩ rfl

/-- C9: on a valid handle, when the read returns zero bytes or fails,
`group_dispatch` tokenizes the zero-filled buffer (one empty token, which
matches no action), invokes no callback, returns 0, and leaves the handle
struct unchanged. -/
theorem C9_read_failure_no_callback_success (hh : group_handle)
    (hm : hh.magic = LIBGROUP_MAGIC) (r : ReadRes)
    (hr : r = ReadRes.closed ∨ r = ReadRes.err) :
    group_dispatch (some hh) r = .ok ⟨0, none, none, true, some hh⟩ := by
  rcases hr with h | h <;> subst h <;> (rw [group_dispatch_valid hh hm]; rfl)

/-- C9 witness: the theorem applied to a concrete live handle and the
zero-byte read. -/
theorem C9_read_failure_no_callback_success_witness :
    group_dispatch (some ⟨LIBGROUP_MAGIC, 3, 0, 0, ⟨1, 1, 1, 1, 1⟩, "p"⟩)
        ReadRes.closed =
      .ok ⟨0, none, none, true,
        some ⟨LIBGROUP_MAGIC, 3, 0, 0, ⟨1, 1, 1, 1, 1⟩, "p"⟩⟩ :=
  C9_read_failure_no_callback_success
    ⟨LIBGROUP_MAGIC, 3, 0, 0, ⟨1, 1, 1, 1, 1⟩, "p"⟩ rfl ReadRes.closed (Or.inl rfl)

/-- C3: on a valid handle, reading the line `"start g1 1 5 10 11 12"` makes
`group_dispatch` invoke exactly the `start` callback with group name
`"g1"`, event type 1, event number 5, node count 3 and node ids
`[10, 11, 12]`, in order, and return 0. -/
theorem C3_start_line_decoded_and_dispatched (hh : group_handle)
    (hm : hh.magic = LIBGROUP_MAGIC) :
    group_dispatch (some hh) (ReadRes.ok "start g1 1 5 10 11 12") =
      .ok ⟨0, none,
        some (hh.cbs.start, Invocation.start "g1" 1 5 3 [10, 11, 12]),
        true, some hh⟩ := by
  rw [group_dispatch_valid hh hm]; rfl

/-- C3 witness: the theorem applied to a concrete live handle. -/
theorem C3_start_line_decoded_and_dispatched_witness :
    group_dispatch (some ⟨LIBGROUP_MAGIC, 3, 0, 0, ⟨1, 2, 3, 4, 5⟩, "p"⟩)
        (ReadRes.ok "start g1 1 5 10 11 12") =
      .ok ⟨0, none, some (2, Invocation.start "g1" 1 5 3 [10, 11, 12]),
        true, some ⟨LIBGROUP_MAGIC, 3, 0, 0, ⟨1, 2, 3, 4, 5⟩, "p"⟩⟩ :=
  C3_start_line_decoded_and_dispatched
    ⟨LIBGROUP_MAGIC, 3, 0, 0, ⟨1, 2, 3, 4, 5⟩, "p"⟩ rfl

/-- C4: whatever the read delivered, if the first token of the tokenized
buffer is none of the five recognized actions, `group_dispatch` invokes no
callback and returns 0 (success): every `strcmp` fails and control falls
through to `return 0`. -/
theorem C4_unrecognized_action_dropped (hh : group_handle)
    (hm : hh.magic = LIBGROUP_MAGIC) (r : ReadRes)
    (act : String) (rest : List String)
    (hargs : make_args (readBuf r) = act :: rest)
    (h1 : act ≠ "stop") (h2 : act ≠ "start") (h3 : act ≠ "finish")
    (h4 : act ≠ "terminate") (h5 : act ≠ "set_id") :
    group_dispatch (some hh) r = .ok ⟨0, none, none, true, some hh⟩ := by
  rw [group_dispatch_valid hh hm, hargs]
  simp only [dispatch_args, bind, Except.bind]
  simp [h1, h2, h3, h4, h5]
  rfl

/-- C4 witness: the theorem applied to a concrete live handle and the line
`"frobnicate x y"`. -/
theorem C4_unrecognized_action_dropped_witness :
    group_dispatch (some ⟨LIBGROUP_MAGIC, 3, 0, 0, ⟨1, 2, 3, 4, 5⟩, "p"⟩)
        (ReadRes.ok "frobnicate x y") =
      .ok ⟨0, none, none, true,
        some ⟨LIBGROUP_MAGIC, 3, 0, 0, ⟨1, 2, 3, 4, 5⟩, "p"⟩⟩ :=
  C4_unrecognized_action_dropped
    ⟨LIBGROUP_MAGIC, 3, 0, 0, ⟨1, 2, 3, 4, 5⟩, "p"⟩ rfl
    (ReadRes.ok "frobnicate x y") "frobnicate" ["x", "y"] rfl
    (by decide) (by decide) (by decide) (by decide) (by decide)

/-- C10: when the first token is `"start"` but fewer than four tokens
arrived, the code computes the negative count `argc - 4` for
`malloc(count * sizeof(int))` and then reads `argv[1]`..`argv[3]`, at least
one of which lies past the end of the token list (`make_args` initialized
only `argv[0]`..`argv[argc-1]`), so the embedding's out-of-bounds branch is
reached: there is no minimum-argument guard. -/
theorem C10_start_short_line_out_of_bounds (hh : group_handle)
    (hm : hh.magic = LIBGROUP_MAGIC) (r : ReadRes) (rest : List String)
    (hargs : make_args (readBuf r) = "start" :: rest)
    (hlen : (make_args (readBuf r)).length < 4) :
    group_dispatch (some hh) r = .error Fault.oobToken ∧
    Int.ofNat (make_args (readBuf r)).length - 4 < 0 := by
  refine ⟨?_, by rw [Int.ofNat_eq_natCast]; omega⟩
  rw [group_dispatch_valid hh hm, hargs]
  rw [hargs] at hlen
  rcases rest with _ | ⟨a, rest⟩
  · rfl
  rcases rest with _ | ⟨b, rest⟩
  · rfl
  rcases rest with _ | ⟨c, rest⟩
  · rfl
  · simp at hlen; omega

/-- C10 witness: the theorem applied to a concrete live handle and the line
`"start g1"` (two tokens). -/
theorem C10_start_short_line_out_of_bounds_witness :
    group_dispatch (some ⟨LIBGROUP_MAGIC, 3, 0, 0, ⟨1, 2, 3, 4, 5⟩, "p"⟩)
        (ReadRes.ok "start g1") = .error Fault.oobToken ∧
    Int.ofNat (make_args (readBuf (ReadRes.ok "start g1"))).length - 4 < 0 :=
  C10_start_short_line_out_of_bounds
    ⟨LIBGROUP_MAGIC, 3, 0, 0, ⟨1, 2, 3, 4, 5⟩, "p"⟩ rfl
    (ReadRes.ok "start g1") ["g1"] rfl (by decide)

/-- C5: `group_exit` on a live handle succeeds, clears the magic tag and
closes the descriptor; afterwards (and for any handle whose tag mismatches,
NULL included) every public handle-taking operation — join, leave,
acknowledge-done, descriptor access, dispatch, close — fails immediately
with `errno = EINVAL` and return value -1, writes nothing, reads nothing,
closes nothing, and leaves the struct contents unchanged. -/
theorem C5_use_after_close_rejected (hh hd : group_handle)
    (hlive : hh.magic = LIBGROUP_MAGIC) (hbad : hd.magic ≠ LIBGROUP_MAGIC)
    (name info : String) (event_nr : Int) (r : ReadRes) :
    group_exit (some hh) = ⟨0, none, [hh.fd], some { hh with magic := 0 }⟩ ∧
    ({ hh with magic := 0 } : group_handle).magic ≠ LIBGROUP_MAGIC ∧
    group_join (some hd) name info = ⟨-1, some EINVAL, [], some hd⟩ ∧
    group_leave (some hd) name info = ⟨-1, some EINVAL, [], some hd⟩ ∧
    group_done (some hd) name event_nr = ⟨-1, some EINVAL, [], some hd⟩ ∧
    group_get_fd (some hd) = (-1, some EINVAL) ∧
    group_dispatch (some hd) r = .ok ⟨-1, some EINVAL, none, false, some hd⟩ ∧
    group_exit (some hd) = ⟨-1, some EINVAL, [], some hd⟩ ∧
    group_join none name info = ⟨-1, some EINVAL, [], none⟩ ∧
    group_leave none name info = ⟨-1, some EINVAL, [], none⟩ ∧
    group_done none name event_nr = ⟨-1, some EINVAL, [], none⟩ ∧
    group_get_fd none = (-1, some EINVAL) ∧
    group_dispatch none r = .ok ⟨-1, some EINVAL, none, false, none⟩ ∧
    group_exit none = ⟨-1, some EINVAL, [], none⟩ := by
  refine ⟨?_, ?_, ?_, ?_, ?_, ?_, ?_, ?_, rfl, rfl, rfl, rfl, rfl, rfl⟩
  · simp [group_exit, hlive]
  · simp [LIBGROUP_MAGIC]
  · simp [group_join, hbad]
  · simp [group_leave, hbad]
  · simp [group_done, hbad]
  · simp [group_get_fd, hbad]
  · simp [group_dispatch, hbad]
  · simp [group_exit, hbad]

/-- C5 witness: the theorem applied to a concrete live handle and the
concrete stale handle `group_exit` leaves behind. -/
theorem C5_use_after_close_rejected_witness :
    group_exit (some ⟨LIBGROUP_MAGIC, 3, 0, 0, ⟨1, 1, 1, 1, 1⟩, "p"⟩) =
      ⟨0, none, [3], some ⟨0, 3, 0, 0, ⟨1, 1, 1, 1, 1⟩, "p"⟩⟩ ∧
    (0 : Nat) ≠ LIBGROUP_MAGIC ∧
    group_join (some ⟨0, 3, 0, 0, ⟨1, 1, 1, 1, 1⟩, "p"⟩) "g1" "" =
      ⟨-1, some EINVAL, [], some ⟨0, 3, 0, 0, ⟨1, 1, 1, 1, 1⟩, "p"⟩⟩ ∧
    group_leave (some ⟨0, 3, 0, 0, ⟨1, 1, 1, 1, 1⟩, "p"⟩) "g1" "" =
      ⟨-1, some EINVAL, [], some ⟨0, 3, 0, 0, ⟨1, 1, 1, 1, 1⟩, "p"⟩⟩ ∧
    group_done (some ⟨0, 3, 0, 0, ⟨1, 1, 1, 1, 1⟩, "p"⟩) "g1" 7 =
      ⟨-1, some EINVAL, [], some ⟨0, 3, 0, 0, ⟨1, 1, 1, 1, 1⟩, "p"⟩⟩ ∧
    group_get_fd (some ⟨0, 3, 0, 0, ⟨1, 1, 1, 1, 1⟩, "p"⟩) =
      (-1, some EINVAL) ∧
    group_dispatch (some ⟨0, 3, 0, 0, ⟨1, 1, 1, 1, 1⟩, "p"⟩) ReadRes.closed =
      .ok ⟨-1, some EINVAL, none, false,
        some ⟨0, 3, 0, 0, ⟨1, 1, 1, 1, 1⟩, "p"⟩⟩ ∧
    group_exit (some ⟨0, 3, 0, 0, ⟨1, 1, 1, 1, 1⟩, "p"⟩) =
      ⟨-1, some EINVAL, [], some ⟨0, 3, 0, 0, ⟨1, 1, 1, 1, 1⟩, "p"⟩⟩ ∧
    group_join none "g1" "" = ⟨-1, some EINVAL, [], none⟩ ∧
    group_leave none "g1" "" = ⟨-1, some EINVAL, [], none⟩ ∧
    group_done none "g1" 7 = ⟨-1, some EINVAL, [], none⟩ ∧
    group_get_fd none = (-1, some EINVAL) ∧
    group_dispatch none ReadRes.closed =
      .ok ⟨-1, some EINVAL, none, false, none⟩ ∧
    group_exit none = ⟨-1, some EINVAL, [], none⟩ :=
  C5_use_after_close_rejected
    ⟨LIBGROUP_MAGIC, 3, 0, 0, ⟨1, 1, 1, 1, 1⟩, "p"⟩
    ⟨0, 3, 0, 0, ⟨1, 1, 1, 1, 1⟩, "p"⟩ rfl (by decide) "g1" "" 7
    ReadRes.closed

/-- C6: when `malloc` succeeds but creating the socket fails or connecting
it fails, `group_init` returns NULL, transmits nothing, leaves no
descriptor open (the `fail` label closes `h->fd`) and frees the allocated
handle struct. -/
theorem C6_init_transport_failure_no_leak (w : InitWorld) (priv : Nat)
    (pn : String) (lvl : Int) (cbs : group_callbacks_t)
    (hmalloc : w.mallocOk = true)
    (hfail : w.socketFd = none ∨ w.connectOk = false) :
    group_init w priv pn lvl cbs = ⟨none, [], [], false⟩ := by
  rcases hfail with h | h
  · simp [group_init, hmalloc, h]
  · cases hsf : w.socketFd with
    | none => simp [group_init, hmalloc, hsf]
    | some fd => simp [group_init, hmalloc, hsf, h]

/-- C6 witness: the theorem applied once with `socket` failing and once
with `connect` failing. -/
theorem C6_init_transport_failure_no_leak_witness :
    group_init ⟨true, none, true, true⟩ 0 "fenced" 1 ⟨1, 1, 1, 1, 1⟩ =
      ⟨none, [], [], false⟩ ∧
    group_init ⟨true, some 5, false, true⟩ 0 "fenced" 1 ⟨1, 1, 1, 1, 1⟩ =
      ⟨none, [], [], false⟩ :=
  ⟨C6_init_transport_failure_no_leak ⟨true, none, true, true⟩ 0 "fenced" 1
      ⟨1, 1, 1, 1, 1⟩ rfl (Or.inl rfl),
   C6_init_transport_failure_no_leak ⟨true, some 5, false, true⟩ 0 "fenced" 1
      ⟨1, 1, 1, 1, 1⟩ rfl (Or.inr rfl)⟩

/-- Success path of `group_init` (shared helper): the returned struct
stores the truncated name while the handshake line carries the original
`prog_name` argument. -/
lemma group_init_success (w : InitWorld) (priv : Nat) (pn : String)
    (lvl : Int) (cbs : group_callbacks_t) (fd : Nat)
    (h1 : w.mallocOk = true) (h2 : w.socketFd = some fd)
    (h3 : w.connectOk = true) (h4 : w.writeOk = true) :
    group_init w priv pn lvl cbs =
      ⟨some ⟨LIBGROUP_MAGIC, fd, lvl, priv, cbs, strncpy32 pn⟩,
       ["setup " ++ pn ++ " " ++ toString lvl], [fd], true⟩ := by
  simp [group_init, h1, h2, h3, h4]

/-- C7 counterexample: the claim says the handshake line carries the
programName truncated to the fixed 32-byte bound. For the 33-character
name `"aaa...a"` the line written by `group_init` is
`"setup " ++ <33 a's> ++ " 0"`, which differs from the line the claim
prescribes (built from the `strncpy`-truncated name): the truncation only
affects the stored `h->prog_name`, because the `sprintf` uses the original
`prog_name` argument. -/
theorem C7_handshake_truncation_counterexample :
    (group_init ⟨true, some 5, true, true⟩ 0 ⟨List.replicate 33 'a'⟩ 0
        ⟨1, 1, 1, 1, 1⟩).wire =
      ["setup " ++ (⟨List.replicate 33 'a'⟩ : String) ++ " 0"] ∧
    "setup " ++ (⟨List.replicate 33 'a'⟩ : String) ++ " 0" ≠
      "setup " ++ strncpy32 ⟨List.replicate 33 'a'⟩ ++ " 0" :=
  ⟨rfl, by decide⟩

/-- C7 amended: `group_init` truncates programName to 32 characters only
for the copy stored in the handle's `prog_name` field; the handshake line
it writes is `"setup " ++ programName ++ " " ++ level` with the original,
untruncated programName. -/
theorem C7_amended_handshake_untruncated_name (w : InitWorld) (priv : Nat)
    (pn : String) (lvl : Int) (cbs : group_callbacks_t) (fd : Nat)
    (h1 : w.mallocOk = true) (h2 : w.socketFd = some fd)
    (h3 : w.connectOk = true) (h4 : w.writeOk = true) :
    (group_init w priv pn lvl cbs).wire =
      ["setup " ++ pn ++ " " ++ toString lvl] ∧
    (group_init w priv pn lvl cbs).handle =
      some ⟨LIBGROUP_MAGIC, fd, lvl, priv, cbs, strncpy32 pn⟩ := by
  rw [group_init_success w priv pn lvl cbs fd h1 h2 h3 h4]
  exact ⟨rfl, rfl⟩

/-- C7 amended witness: the theorem applied to the 33-character name. -/
theorem C7_amended_handshake_untruncated_name_witness :
    (group_init ⟨true, some 5, true, true⟩ 0 ⟨List.replicate 33 'a'⟩ 0
        ⟨1, 1, 1, 1, 1⟩).wire =
      ["setup " ++ (⟨List.replicate 33 'a'⟩ : String) ++ " " ++
        toString (0 : Int)] ∧
    (group_init ⟨true, some 5, true, true⟩ 0 ⟨List.replicate 33 'a'⟩ 0
        ⟨1, 1, 1, 1, 1⟩).handle =
      some ⟨LIBGROUP_MAGIC, 5, 0, 0, ⟨1, 1, 1, 1, 1⟩,
        strncpy32 ⟨List.replicate 33 'a'⟩⟩ :=
  C7_amended_handshake_untruncated_name ⟨true, some 5, true, true⟩ 0
    ⟨List.replicate 33 'a'⟩ 0 ⟨1, 1, 1, 1, 1⟩ 5 rfl rfl rfl rfl

/-- C8 counterexample: the claim says dispatch invokes the handler
currently stored in the application's callback set at dispatch time. The
application opens the session with a set whose `stop` slot holds handler 1,
then overwrites its own set so the `stop` slot holds handler 2
(`group_callbacks_t.mk 2 2 2 2 2`). Dispatching `"stop g1"` still invokes
handler 1: `group_init` executed `h->cbs = *cbs`, copying the struct by
value, so the session does not observe the application's change. -/
theorem C8_callback_reference_counterexample :
    (group_init ⟨true, some 4, true, true⟩ 0 "p" 0 ⟨1, 1, 1, 1, 1⟩).handle =
      some ⟨LIBGROUP_MAGIC, 4, 0, 0, ⟨1, 1, 1, 1, 1⟩, "p"⟩ ∧
    group_dispatch (some ⟨LIBGROUP_MAGIC, 4, 0, 0, ⟨1, 1, 1, 1, 1⟩, "p"⟩)
        (ReadRes.ok "stop g1") =
      .ok ⟨0, none, some (1, Invocation.stop "g1"), true,
        some ⟨LIBGROUP_MAGIC, 4, 0, 0, ⟨1, 1, 1, 1, 1⟩, "p"⟩⟩ ∧
    (group_callbacks_t.mk 2 2 2 2 2).stop ≠ 1 :=
  ⟨rfl, rfl, by decide⟩

/-- C8 amended: `group_init` copies the caller's `group_callbacks_t` by
value into the handle, so dispatch invokes the handler captured at open
time: for any callback set supplied at `group_init` and any successful
open, dispatching `"stop g1"` invokes exactly that set's `stop` handler. -/
theorem C8_amended_callbacks_copied_at_init (w : InitWorld) (priv : Nat)
    (pn : String) (lvl : Int) (cbs : group_callbacks_t) (fd : Nat)
    (h1 : w.mallocOk = true) (h2 : w.socketFd = some fd)
    (h3 : w.connectOk = true) (h4 : w.writeOk = true) :
    group_dispatch (group_init w priv pn lvl cbs).handle
        (ReadRes.ok "stop g1") =
      .ok ⟨0, none, some (cbs.stop, Invocation.stop "g1"), true,
        (group_init w priv pn lvl cbs).handle⟩ := by
  rw [group_init_success w priv pn lvl cbs fd h1 h2 h3 h4]
  rw [group_dispatch_valid _ rfl]
  rfl

/-- C8 amended witness: the theorem applied to a concrete open. -/
theorem C8_amended_callbacks_copied_at_init_witness :
    group_dispatch
        (group_init ⟨true, some 4, true, true⟩ 0 "p" 0
          ⟨9, 9, 9, 9, 9⟩).handle (ReadRes.ok "stop g1") =
      .ok ⟨0, none, some (9, Invocation.stop "g1"), true,
        (group_init ⟨true, some 4, true, true⟩ 0 "p" 0
          ⟨9, 9, 9, 9, 9⟩).handle⟩ :=
  C8_amended_callbacks_copied_at_init ⟨true, some 4, true, true⟩ 0 "p" 0
    ⟨9, 9, 9, 9, 9⟩ 4 rfl rfl rfl rfl

end LibGroup
